import Mathlib

/-!
Verification development for the CUB (Curtin University Brailler) control
software.  The definitions below are a shallow embedding of the Python
sources: `CUBrailler.py` (print/position supervisor, command dispatcher,
completion barrier), `component_control/ToolSelector.py`,
`component_control/hardware_interface/StepperMotor.py`,
`DCOutputDevice.py` and `component_control/Feeder.py`.

Machine-level concerns (GPIO, real time, threading) are out of scope; each
component interaction is modelled as the symbolic message it puts on the
communication fabric, and the concurrently-running component replies are
modelled as oracles (functions from a receive index to the reply string).
-/

namespace CUB

/-- Names of the threaded components registered in the `tasks` dictionary by
`start_threads` in `CUBrailler.py` (insertion order: Traverser, Selector,
Feeder, Input).  The Embosser is driven directly by the main thread and has
no task counter. -/
inductive Comp
  | Traverser
  | Selector
  | Feeder
  | Input
  deriving DecidableEq

/-- The dictionary-key string of a component, as used in `CUBrailler.py`. -/
def compName : Comp → String
  | Comp.Traverser => "Traverser"
  | Comp.Selector => "Selector"
  | Comp.Feeder => "Feeder"
  | Comp.Input => "Input"

/-- The key list of the `tasks` dictionary, in insertion order
(`start_threads` initialises Traverser, Selector, Feeder, Input to 0). -/
def allComps : List Comp := [Comp.Traverser, Comp.Selector, Comp.Feeder, Comp.Input]

/-- `Feeder.A4_CELLS`: width of A4 paper in Braille cells. -/
def A4_CELLS : Int := 20

/-- `Feeder.A4_LINES`: length of A4 paper in lines. -/
def A4_LINES : Int := 27

/-- `Feeder.get_paper_size` as seen by the supervisor: `initialise_components`
constructs `Feeder(simulate=True)`, and in simulation `get_paper_size`
returns `Feeder.A4_CELLS`. -/
def get_paper_size : Int := A4_CELLS

/-- `Feeder.get_paper_length` as seen by the supervisor: with
`Feeder(simulate=True)` it returns `Feeder.A4_LINES`. -/
def get_paper_length : Int := A4_LINES

/-- The `OperationError` exception of `CUBExceptions.py`: component,
operation and message fields. -/
structure OperationError where
  component : String
  operation : String
  message : String
  deriving DecidableEq

/-- An observable action of the supervisor thread on the communication
fabric: a `send_task` dispatch, a `task_barrier` call, or a direct
`Embosser.activate()` strike. -/
inductive Ev
  | send (target : Comp) (task : String)
  | barrier (targets : List Comp)
  | emboss
  deriving DecidableEq

/-- The supervisor position state of `CUBrailler.py`: module globals
`current_line` (1-based), `current_char` (0-based) and `last_char`.
Python integers are modelled as `Int`. -/
structure SupState where
  current_line : Int
  current_char : Int
  last_char : String
  deriving DecidableEq

/-- The supervisor state at the start of a print session: globals are
initialised to `current_line = 1`, `current_char = 0`, and `cub_loop`
resets `last_char` to the empty string. -/
def initSup : SupState := { current_line := 1, current_char := 0, last_char := "" }

/-- `print_col(column)` from `CUBrailler.py`: dispatch `"MOVE " + column` to
the Selector, run `task_barrier(targets=['Selector', 'Traverser',
'Feeder'])`, then `components['Embosser'].activate()`.  It does not touch
the position state; the events it emits are returned. -/
def print_col (column : String) : List Ev :=
  [Ev.send Comp.Selector ("MOVE " ++ column),
   Ev.barrier [Comp.Selector, Comp.Traverser, Comp.Feeder],
   Ev.emboss]

/-- `print_char(char)` from `CUBrailler.py`.  A space cell (`"000000"`) at
column 0 after a non-space is suppressed (the `if` branch of the source has
an empty body); any other space re-dispatches two Traverser moves; a
non-space cell prints the two half-patterns `char[0:3]` and `char[3:6]`
around a head-column advance.  `print_char` never assigns `current_char`
or `current_line`; it only reads them. -/
def print_char (s : SupState) (char : String) : SupState × List Ev :=
  if char = "000000" then
    if s.current_char = 0 ∧ s.last_char ≠ "000000" then
      (s, [])
    else
      (s, [Ev.send Comp.Traverser "MOVE COL POS", Ev.send Comp.Traverser "MOVE CHAR POS"])
  else
    (s, print_col (char.take 3) ++ [Ev.send Comp.Traverser "MOVE COL POS"] ++
        print_col ((char.drop 3).take 3))

/-- `head_next_char(word_length)` from `CUBrailler.py`.  On overflow of the
line (`current_char + word_length > get_paper_size()`) it homes the
Traverser and the Selector, zeroes `current_char`, and either ejects and
reloads paper (resetting `current_line` to 1) or feeds one line
(incrementing `current_line`).  Otherwise it advances the Traverser one
character slot when not at column 0 and always increments `current_char`.
The source contains no `task_barrier` call. -/
def head_next_char (s : SupState) (word_length : Int) : SupState × List Ev :=
  if s.current_char + word_length > get_paper_size then
    if s.current_line = get_paper_length then
      ({ s with current_char := 0, current_line := 1 },
       [Ev.send Comp.Traverser "HOME", Ev.send Comp.Selector "HOME",
        Ev.send Comp.Feeder "PAPER EJECT", Ev.send Comp.Feeder "PAPER LOAD"])
    else
      ({ s with current_char := 0, current_line := s.current_line + 1 },
       [Ev.send Comp.Traverser "HOME", Ev.send Comp.Selector "HOME",
        Ev.send Comp.Feeder "FEED 1 POS"])
  else
    if s.current_char ≠ 0 then
      ({ s with current_char := s.current_char + 1 }, [Ev.send Comp.Traverser "MOVE CHAR POS"])
    else
      ({ s with current_char := s.current_char + 1 }, [])

/-- `backspace(clear)` from `CUBrailler.py`.  At column 0 of line 1 it
raises `OperationError` before touching any state or dispatching anything;
at column 0 of a later line it feeds backward, homes the Selector, moves
the Traverser to the last column and sets `current_line -= 1`,
`current_char = get_paper_size() - 1`; then in all non-error paths it
optionally clears the two half-cells, moves one column left, decrements
`current_char`, and moves one character left unless the counter reached 0. -/
def backspace (s : SupState) (clear : Bool) : Except OperationError (SupState × List Ev) :=
  if s.current_char = 0 then
    if s.current_line = 1 then
      Except.error { component := "CUBBrailler", operation := "Backspace",
                     message := "Unable to backspace at start of page, no action taken" }
    else
      let s1 : SupState := { s with current_line := s.current_line - 1,
                                    current_char := get_paper_size - 1 }
      let evs1 : List Ev :=
        [Ev.send Comp.Feeder "FEED 1 NEG", Ev.send Comp.Selector "HOME",
         Ev.send Comp.Traverser ("MOVE CHAR POS " ++ toString get_paper_size),
         Ev.send Comp.Traverser ("MOVE COL POS " ++ toString get_paper_size)]
      let evs2 : List Ev :=
        if clear then
          print_col "000" ++ [Ev.send Comp.Traverser "MOVE COL NEG"] ++ print_col "000"
        else
          [Ev.send Comp.Traverser "MOVE COL NEG"]
      let s2 : SupState := { s1 with current_char := s1.current_char - 1 }
      let evs3 : List Ev :=
        if s2.current_char ≠ 0 then [Ev.send Comp.Traverser "MOVE CHAR NEG"] else []
      Except.ok (s2, evs1 ++ evs2 ++ evs3)
  else
    let evs2 : List Ev :=
      if clear then
        print_col "000" ++ [Ev.send Comp.Traverser "MOVE COL NEG"] ++ print_col "000"
      else
        [Ev.send Comp.Traverser "MOVE COL NEG"]
    let s2 : SupState := { s with current_char := s.current_char - 1 }
    let evs3 : List Ev :=
      if s2.current_char ≠ 0 then [Ev.send Comp.Traverser "MOVE CHAR NEG"] else []
    Except.ok (s2, evs2 ++ evs3)

/-- Whether an event trace contains a `task_barrier` call. -/
def hasBarrier : List Ev → Bool
  | [] => false
  | Ev.barrier _ :: _ => true
  | _ :: rest => hasBarrier rest

/-- Guard check for embosser strikes: scanning the trace left to right, an
`emboss` event is guarded when the most recent fabric event before it is a
barrier whose target set contains both the Selector and the Traverser and
no command was dispatched to either of them since.  The Boolean argument
carries whether the strike guard currently holds. -/
def strikesGuarded : List Ev → Bool → Bool
  | [], _ => true
  | Ev.emboss :: rest, g => g && strikesGuarded rest g
  | Ev.barrier ts :: rest, _ =>
      strikesGuarded rest (decide (Comp.Selector ∈ ts) && decide (Comp.Traverser ∈ ts))
  | Ev.send t _ :: rest, g =>
      strikesGuarded rest (g && !(t = Comp.Selector || t = Comp.Traverser))

/-- One character-processing step of the supervisor, as invocable from
`cub_loop` / `print_word`: a `print_char` on any cell, a `head_next_char`
with a positive word length (`print_word` passes `len(word) - i ≥ 1`, the
default is 1), a completed `backspace`, or a `backspace` aborted by an
`OperationError` from the embedded `print_col` barrier after the
line-return assignments have been made (position updates in the source
precede the barrier calls, so that partial state is observable). -/
inductive SupStep : SupState → SupState → Prop
  | print (s : SupState) (c : String) : SupStep s (print_char s c).1
  | next (s : SupState) (wl : Int) (h : 1 ≤ wl) : SupStep s (head_next_char s wl).1
  | bsp (s s' : SupState) (clear : Bool) (evs : List Ev)
      (h : backspace s clear = Except.ok (s', evs)) : SupStep s s'
  | bspPartial (s : SupState) (h0 : s.current_char = 0) (h1 : s.current_line ≠ 1) :
      SupStep s { s with current_line := s.current_line - 1,
                         current_char := get_paper_size - 1 }

/-- States of the supervisor reachable from the session-start state by
character-processing steps. -/
def SupReachable (s : SupState) : Prop :=
  Relation.ReflTransGen SupStep initSup s

/-- The position invariant of the data model. -/
def PosInv (s : SupState) : Prop :=
  0 ≤ s.current_char ∧ s.current_char ≤ get_paper_size ∧
  1 ≤ s.current_line ∧ s.current_line ≤ get_paper_length

/-- Pointwise update of a component-indexed map (a Python dict entry
assignment `d[c] = v`). -/
def upd {α : Type} (f : Comp → α) (c : Comp) (v : α) : Comp → α :=
  fun x => if x = c then v else f x

/-- Bookkeeping state of the command dispatcher and completion barrier.
`tasks` is the `tasks` counter dictionary of `CUBrailler.py` (an `Int`,
since Python integers are unbounded in both directions).  The remaining
fields are history variables used to state the outstanding-count
invariant: `sent c` counts `send_task` dispatches to `c`, `acked c`
counts success acknowledgements drained for `c`, and `recvd c` counts all
messages received from `c` (each component replies to each command exactly
once, so a `recv` can only return when `recvd c < sent c`). -/
structure BarState where
  tasks : Comp → Int
  sent : Comp → Nat
  acked : Comp → Nat
  recvd : Comp → Nat

/-- The dispatcher state after `start_threads`: all counters zero. -/
def initBar : BarState :=
  { tasks := fun _ => 0, sent := fun _ => 0, acked := fun _ => 0, recvd := fun _ => 0 }

/-- `send_task(target, task)` from `CUBrailler.py`: deliver the task string
to the component and increment its outstanding-task counter. -/
def send_task (σ : BarState) (target : Comp) (task : String) : BarState :=
  { σ with tasks := upd σ.tasks target (σ.tasks target + 1),
           sent := upd σ.sent target (σ.sent target + 1) }

/-- Dispatcher state after `task_barrier` receives one message from `c` and
it equals `"ACK"`: the counter for `c` is decremented (and the history
variables record one more receive and one more success). -/
def recvAckState (σ : BarState) (c : Comp) : BarState :=
  { σ with tasks := upd σ.tasks c (σ.tasks c - 1),
           acked := upd σ.acked c (σ.acked c + 1),
           recvd := upd σ.recvd c (σ.recvd c + 1) }

/-- Dispatcher state after `task_barrier` receives one message from `c` and
it is not `"ACK"`: the message is consumed but the counter is untouched
(the source raises `OperationError` without decrementing). -/
def recvFailState (σ : BarState) (c : Comp) : BarState :=
  { σ with recvd := upd σ.recvd c (σ.recvd c + 1) }

/-- Result of a `task_barrier` call: normal return, an `OperationError`
raise, or blocking forever on a `recv` for which no reply will ever come. -/
inductive BarrierOutcome
  | completed
  | failed (e : OperationError)
  | blocked
  deriving DecidableEq

/-- The inner loop of `task_barrier` for one component: `for i in
range(0, count): msg = components[name].recv(); if msg == ACK:
tasks[name] -= 1 else: raise OperationError(name, "", msg)`.  The reply
oracle `msgs c i` gives the `i`-th message ever received from `c`; a
`recv` with no outstanding reply (`recvd ≥ sent`) blocks forever. -/
def drain (msgs : Comp → Nat → String) (c : Comp) : Nat → BarState → BarState × BarrierOutcome
  | 0, σ => (σ, BarrierOutcome.completed)
  | n + 1, σ =>
      if σ.recvd c < σ.sent c then
        if msgs c (σ.recvd c) = "ACK" then
          drain msgs c n (recvAckState σ c)
        else
          (recvFailState σ c,
           BarrierOutcome.failed
             { component := compName c, operation := "", message := msgs c (σ.recvd c) })
      else
        (σ, BarrierOutcome.blocked)

/-- Sequential draining of a component group, aborting at the first
component whose drain does not complete. -/
def drainGroup (msgs : Comp → Nat → String) :
    List (Comp × Nat) → BarState → BarState × BarrierOutcome
  | [], σ => (σ, BarrierOutcome.completed)
  | (c, n) :: rest, σ =>
      match drain msgs c n σ with
      | (σ1, BarrierOutcome.completed) => drainGroup msgs rest σ1
      | (σ1, r) => (σ1, r)

/-- `task_barrier(targets)` from `CUBrailler.py`.  The group pairs each
targeted component with its outstanding count recorded at call time
(`group.append([tar, tasks[tar]])`); an empty target list means all
components (`tasks.items()` — the dict view reads each count only when
that component's turn comes, but draining one component never changes
another's counter, so the call-time snapshot is extensionally the same).
`range(0, count)` of a non-positive count is empty, hence `Int.toNat`. -/
def task_barrier (msgs : Comp → Nat → String) (targets : List Comp) (σ : BarState) :
    BarState × BarrierOutcome :=
  let group : List (Comp × Nat) :=
    if targets.isEmpty then
      allComps.map (fun c => (c, (σ.tasks c).toNat))
    else
      targets.map (fun c => (c, (σ.tasks c).toNat))
  drainGroup msgs group σ

/-- Dispatcher states reachable by any interleaving of `send_task` calls
and individual barrier receive steps (the two receive steps are exactly
the state mutations performed inside `drain`, so every intermediate state
of every `task_barrier` call is included — this is the "always" of the
outstanding-count invariant). -/
inductive BarReach (msgs : Comp → Nat → String) : BarState → Prop
  | init : BarReach msgs initBar
  | send (σ : BarState) (t : Comp) (task : String) :
      BarReach msgs σ → BarReach msgs (send_task σ t task)
  | recvAck (σ : BarState) (c : Comp) (h1 : σ.recvd c < σ.sent c)
      (h2 : msgs c (σ.recvd c) = "ACK") :
      BarReach msgs σ → BarReach msgs (recvAckState σ c)
  | recvFail (σ : BarState) (c : Comp) (h1 : σ.recvd c < σ.sent c)
      (h2 : msgs c (σ.recvd c) ≠ "ACK") :
      BarReach msgs σ → BarReach msgs (recvFailState σ c)

/-- `ToolSelector.STEPS_PER_TOOL`: motor steps between adjacent tool faces. -/
def STEPS_PER_TOOL : Int := 6

/-- Thread-visible state of the `ToolSelector` component: the tracked
`currentTool`, the `exit` flag set by `close()`, whether the tool stepper
has been emergency-stopped, and the number of home-sensor reads performed
so far (index into the sensor oracle).  Motor stepping itself has no
observable effect on this state. -/
structure SelState where
  currentTool : Int
  exit : Bool
  estop : Bool
  sensorIdx : Nat
  deriving DecidableEq

/-- Exceptions that can escape the `ToolSelector` operating loop:
`OperationError` or `CommunicationError` from `CUBExceptions.py` (the
source passes `self.__class__` as the component of a
`CommunicationError`; it is modelled by the class name string). -/
inductive CUBErr
  | opErr (e : OperationError)
  | commErr (component : String) (errorInput : String) (message : String)
  deriving DecidableEq

/-- One `read_sensor()` call against the oracle `sens` (the oracle gives
the value of each successive read). -/
def read_sensor (sens : Nat → Bool) (s : SelState) : Bool × SelState :=
  (sens s.sensorIdx, { s with sensorIdx := s.sensorIdx + 1 })

/-- `ToolSelector.__tool_home` (non-simulated): if the home sensor already
reads true the rotation is skipped (note the source leaves `currentTool`
untouched on this path); otherwise rotate up to `expected*2` steps and
re-read, then up to `STEPS_PER_TOOL*10` more and re-read, and raise
`OperationError(__name__, 'Tool Home', ...)` if the blank face still is
not detected.  Motor step counts are not observable in this model; the
sensor reads and the `currentTool` / error effects are. -/
def tool_home (sens : Nat → Bool) (s : SelState) : SelState × Option OperationError :=
  let (r0, s0) := read_sensor sens s
  if r0 then
    (s0, none)
  else
    let (r1, s1) := read_sensor sens s0
    if r1 then
      ({ s1 with currentTool := 0 }, none)
    else
      let (r2, s2) := read_sensor sens s1
      if r2 then
        ({ s2 with currentTool := 0 }, none)
      else
        (s2, some { component := "component_control.ToolSelector", operation := "Tool Home",
                    message := "Tool home operation failed, - Blank face could not be selected" })

/-- The branch taken by `ToolSelector.__tool_select(tool)` and, for a
rotation, its direction and step count: `stay` when the tool is already
selected, `home` for tool 0, `invalid` for an out-of-range index
(`CommunicationError`), else the wrapped-delta rotation (`movement`
wrapped into [-3,4] by ±8; positive sign picks the positive direction;
`movement * STEPS_PER_TOOL` steps). -/
inductive SelAction
  | stay
  | home
  | invalid
  | move (positive : Bool) (steps : Int)
  deriving DecidableEq

/-- The decision logic of `ToolSelector.__tool_select`, lifted out as a
pure function of `(currentTool, tool)`. -/
def tool_select_action (currentTool tool : Int) : SelAction :=
  if tool = currentTool then
    SelAction.stay
  else if tool = 0 then
    SelAction.home
  else if tool > 7 ∨ tool < 0 then
    SelAction.invalid
  else
    let movement := tool - currentTool
    let movement := if movement > 4 then movement - 8
                    else if movement < -3 then movement + 8
                    else movement
    if movement > 0 then
      SelAction.move true (movement * STEPS_PER_TOOL)
    else
      SelAction.move false ((-movement) * STEPS_PER_TOOL)

/-- `ToolSelector.__tool_select(tool)` as a state transformer: dispatches
on `tool_select_action`; the trailing `self.currentTool = tool` of the
source runs on every non-raising path. -/
def tool_select (sens : Nat → Bool) (s : SelState) (tool : Int) : SelState × Option CUBErr :=
  match tool_select_action s.currentTool tool with
  | SelAction.stay => ({ s with currentTool := tool }, none)
  | SelAction.home =>
      match tool_home sens s with
      | (s1, none) => ({ s1 with currentTool := tool }, none)
      | (s1, some e) => (s1, some (CUBErr.opErr e))
  | SelAction.invalid =>
      (s, some (CUBErr.commErr "ToolSelector" (toString tool) "Invalid Tool Index"))
  | SelAction.move _ _ => ({ s with currentTool := tool }, none)

/-- One binary digit for `translate_tool`. -/
def binDigit (ch : Char) : Option Nat :=
  if ch = '0' then some 0 else if ch = '1' then some 1 else none

/-- Accumulating base-2 parse (most significant digit first). -/
def parseBinAux : List Char → Nat → Option Nat
  | [], acc => some acc
  | ch :: rest, acc =>
      match binDigit ch with
      | some d => parseBinAux rest (acc * 2 + d)
      | none => none

/-- Python `int(s, 2)`: fails on the empty string or a non-binary digit. -/
def parseBin (l : List Char) : Option Nat :=
  if l = [] then none else parseBinAux l 0

/-- `translate_tool(index)` from `ToolSelector.py`: reverse the string and
read it as a base-2 integer; `none` models the `ValueError`. -/
def translate_tool (index : String) : Option Int :=
  Option.map Int.ofNat (parseBin index.toList.reverse)

/-- Accumulator-based whitespace split: Python `str.split()` splits on
runs of whitespace and discards empty fields (the wire protocol only uses
single spaces). -/
def splitWSAux : List Char → List Char → List String
  | [], acc => if acc = [] then [] else [String.mk acc.reverse]
  | ch :: rest, acc =>
      if ch = ' ' then
        if acc = [] then splitWSAux rest []
        else String.mk acc.reverse :: splitWSAux rest []
      else splitWSAux rest (ch :: acc)

/-- Python `msg.split()` on the wire messages. -/
def pySplit (msg : String) : List String := splitWSAux msg.toList []

/-- `ToolSelector.__input()`: split the wire message on whitespace and pad
to three fields with `"NULL"`, yielding (key, index, direction). -/
def selInput (msg : String) : String × String × String :=
  let parts := pySplit msg
  (parts.getD 0 "NULL", parts.getD 1 "NULL", parts.getD 2 "NULL")

/-- Dispatch of one received command inside `ToolSelector.__run`: `CLOSE`
sets the exit flag, `HOME` runs `__tool_home`, `MOVE` translates the index
and runs `__tool_select` (a failed translation raises
`CommunicationError`), any other key raises `CommunicationError`. -/
def selCommand (sens : Nat → Bool) (s : SelState) (msg : String) : SelState × Option CUBErr :=
  let (key, index, _direction) := selInput msg
  if key = "CLOSE" then
    ({ s with exit := true }, none)
  else if key = "HOME" then
    match tool_home sens s with
    | (s1, none) => (s1, none)
    | (s1, some e) => (s1, some (CUBErr.opErr e))
  else if key = "MOVE" then
    match translate_tool index with
    | some tool => tool_select sens s tool
    | none => (s, some (CUBErr.commErr "ToolSelector" index "Conversion to Base 2 Index Failed"))
  else
    (s, some (CUBErr.commErr "ToolSelector" key "Key portion of message"))

/-- `ToolSelector.__run`: loop `while not self.exit` over the incoming
command stream, acknowledging each successfully processed command with
`"ACK"`.  An exception from a command handler propagates out of the loop
(there is no handler inside it): the outputs so far, the state at the
raise, and the exception are returned.  An exhausted command list models a
thread still blocked in `recv`. -/
def runSel (sens : Nat → Bool) (s : SelState) :
    List String → List String × SelState × Option CUBErr
  | [] => ([], s, none)
  | m :: rest =>
      if s.exit then
        ([], s, none)
      else
        match selCommand sens s m with
        | (s1, none) =>
            let (outs, s2, r) := runSel sens s1 rest
            ("ACK" :: outs, s2, r)
        | (s1, some e) => ([], s1, some e)

/-- `ToolSelector.emergency_stop()` (non-simulated): `toolStepper.e_stop()`
then `close()`. -/
def selEmergencyStop (s : SelState) : SelState :=
  { s with estop := true, exit := true }

/-- The failure-acknowledgement string that `ToolSelector.thread_in` sends
over the pipe for each caught exception class. -/
def fmtCUBErr : CUBErr → String
  | CUBErr.opErr e => e.component ++ " ERROR: " ++ e.message ++ " - OP: " ++ e.operation
  | CUBErr.commErr comp inp m => comp ++ " ERROR: " ++ m ++ " - MSG: " ++ inp

/-- `ToolSelector.thread_in` restricted to the Operating phase (startup
already acknowledged): run `__run`; any `OperationError` /
`CommunicationError` is caught and reported as a message over the channel,
and the `finally` block emergency-stops the component whenever the loop
has terminated.  A command list exhausted without exit or error leaves the
thread blocked in `recv` (no `finally` yet). -/
def threadInOperating (sens : Nat → Bool) (s : SelState) (msgs : List String) :
    List String × SelState :=
  match runSel sens s msgs with
  | (outs, s1, none) => if s1.exit then (outs, selEmergencyStop s1) else (outs, s1)
  | (outs, s1, some e) => (outs ++ [fmtCUBErr e], selEmergencyStop s1)

/-- A sensor oracle on which every `read_sensor()` returns false (the home
face is never detected). -/
def sensNever : Nat → Bool := fun _ => false

/-- The process-wide hardware latches: `StepperMotor.emergencyFlag` (a
class attribute shared by all stepper motors) and
`DCOutputDevice.emergencyFlag` (a class attribute shared by all DC output
devices).  They are distinct `threading.Event` objects. -/
structure HWState where
  stepperEmergency : Bool
  dcEmergency : Bool
  deriving DecidableEq

/-- Both latches clear at process start (`threading.Event()`). -/
def initHW : HWState := { stepperEmergency := false, dcEmergency := false }

/-- `StepperMotor.e_stop()`: sets the stepper class latch (and disables the
motor outputs). -/
def stepper_e_stop (h : HWState) : HWState := { h with stepperEmergency := true }

/-- `DCOutputDevice.e_stop()`: sets the DC-device class latch and stops the
current output. -/
def dc_e_stop (h : HWState) : HWState := { h with dcEmergency := true }

/-- `StepperMotor.move_steps(count, dir)` with no concurrent `stop()` call:
when the stepper latch is set, `__startup_motor` refuses to enable the
motor and the first loop iteration breaks with `step_count = 0`; otherwise
all `count` steps are taken.  The return value is the actual step count. -/
def move_steps (h : HWState) (count : Nat) : Nat :=
  if h.stepperEmergency then 0 else count

/-- `DCOutputDevice.__pulse_for(direction, duration)` observed as whether
an output pulse physically occurred: when the DC latch is set the function
logs, returns -1 and never enables the output; otherwise it enables the
output for the duration. -/
def pulse_for (h : HWState) : Bool := !h.dcEmergency

/-- `Embosser.activate()` with `DUAL_DIR = False`: a
`pulse(DOWN_DIR, duration=PULSE_LEN)` with nonzero duration, i.e. a
`__pulse_for` call on the embosser coil. -/
def activate (h : HWState) : Bool := pulse_for h

/-- The `emergency_stop` entry points of the Actuator Controllers as
constructed by `initialise_components`: ToolSelector and HeadTraverser
(non-simulated) e-stop their stepper; the Embosser (non-simulated) e-stops
its DC output device; the Feeder is constructed with `simulate=True`, so
its `emergency_stop` skips both `e_stop` calls. -/
inductive EStopOp
  | selector
  | traverser
  | embosser
  | feeder
  deriving DecidableEq

/-- Effect of one controller emergency stop on the class latches. -/
def runEStop : EStopOp → HWState → HWState
  | EStopOp.selector => stepper_e_stop
  | EStopOp.traverser => stepper_e_stop
  | EStopOp.embosser => dc_e_stop
  | EStopOp.feeder => fun h => h

/-- Any sequence of controller emergency stops. -/
def runHW : List EStopOp → HWState → HWState
  | [], h => h
  | op :: rest, h => runHW rest (runEStop op h)

/-- The cells passed to `print_char` by one `print_word(word)` call: each
buffered cell in order, then the trailing space cell. -/
def print_word_cells (word : List String) : List String :=
  word ++ ["000000"]

/-- The `elif not word_wrap` branch of `cub_loop`, recording the sequence
of cells handed to `print_char`: a space cell triggers
`print_word(word_buffer)`, any other cell is appended to `word_buffer`.
The source never empties `word_buffer` after printing it. -/
def cub_loop_nowrap : List String → List String → List String
  | [], _ => []
  | c :: rest, buf =>
      if c = "000000" then
        print_word_cells buf ++ cub_loop_nowrap rest buf
      else
        cub_loop_nowrap rest (buf ++ [c])

/-- Auxiliary invariant for the dispatcher bookkeeping: the counter equals
sent minus success-acknowledged, and the history counts are ordered
`acked ≤ recvd ≤ sent`. -/
def BarInv (σ : BarState) : Prop :=
  ∀ c, σ.tasks c = (σ.sent c : Int) - (σ.acked c : Int) ∧
    σ.acked c ≤ σ.recvd c ∧ σ.recvd c ≤ σ.sent c

/-- A reply oracle on which every component always acknowledges success. -/
def ackAlways : Comp → Nat → String := fun _ _ => "ACK"

/-- A reply oracle on which every component reports the same operation
failure (the failure-acknowledgement string names the failed operation
only inside the free-text message). -/
def failAlways : Comp → Nat → String := fun _ _ => "Selector ERROR: fail - OP: Tool Select"

/-- A small concrete dispatcher state: two commands sent to the Selector,
nothing drained yet. -/
def barDemo : BarState :=
  send_task (send_task initBar Comp.Selector "MOVE 100") Comp.Selector "MOVE 010"

end CUB

namespace CUB

/-- C10: a `backspace` invoked when `current_char = 0` and
`current_line = 1` raises an `OperationError` naming CUBBrailler /
Backspace and performs no action: the error is raised before any state
assignment or `send_task` dispatch. -/
theorem backspace_at_origin_fails (s : SupState) (clear : Bool)
    (h0 : s.current_char = 0) (h1 : s.current_line = 1) :
    backspace s clear =
      Except.error { component := "CUBBrailler", operation := "Backspace",
                     message := "Unable to backspace at start of page, no action taken" } := by
  simp [backspace, h0, h1]

/-- Witness for `backspace_at_origin_fails` at the session-start state. -/
theorem backspace_at_origin_fails_witness :
    backspace initSup true =
      Except.error { component := "CUBBrailler", operation := "Backspace",
                     message := "Unable to backspace at start of page, no action taken" } :=
  backspace_at_origin_fails initSup true rfl rfl

/-- C1 counterexample: `print_char` does not increment `current_char` (the
claim says the third dispatch is followed by an increment of
`current_char`; the source never assigns it in `print_char` — the
increment lives in `head_next_char`).  At the concrete non-space cell
`"100000"` from the session-start state the counter stays 0. -/
theorem print_char_increments_cex :
    ¬ ((print_char initSup "100000").1.current_char = initSup.current_char + 1) := by
  decide

/-- C1 amended: for a non-space cell, `print_char` emits exactly the
left-half column select, a barrier on {Selector, Traverser, Feeder}, an
embosser strike, the head-column advance, the right-half column select,
a second such barrier and a second strike, leaving the position state
unchanged; every strike is guarded by a completion barrier containing both
the Selector and the Traverser with no later command to either. -/
theorem print_char_nonspace_trace (s : SupState) (c : String) (h : c ≠ "000000") :
    print_char s c =
      (s, [Ev.send Comp.Selector ("MOVE " ++ c.take 3),
           Ev.barrier [Comp.Selector, Comp.Traverser, Comp.Feeder],
           Ev.emboss,
           Ev.send Comp.Traverser "MOVE COL POS",
           Ev.send Comp.Selector ("MOVE " ++ (c.drop 3).take 3),
           Ev.barrier [Comp.Selector, Comp.Traverser, Comp.Feeder],
           Ev.emboss]) ∧
    strikesGuarded (print_char s c).2 false = true := by
  have h1 : print_char s c =
      (s, [Ev.send Comp.Selector ("MOVE " ++ c.take 3),
           Ev.barrier [Comp.Selector, Comp.Traverser, Comp.Feeder],
           Ev.emboss,
           Ev.send Comp.Traverser "MOVE COL POS",
           Ev.send Comp.Selector ("MOVE " ++ (c.drop 3).take 3),
           Ev.barrier [Comp.Selector, Comp.Traverser, Comp.Feeder],
           Ev.emboss]) := by
    simp [print_char, h, print_col]
  refine ⟨h1, ?_⟩
  rw [h1]
  rfl

/-- Witness for `print_char_nonspace_trace` at the cell `"101110"`. -/
theorem print_char_nonspace_trace_witness :
    print_char initSup "101110" =
      (initSup, [Ev.send Comp.Selector ("MOVE " ++ ("101110" : String).take 3),
           Ev.barrier [Comp.Selector, Comp.Traverser, Comp.Feeder],
           Ev.emboss,
           Ev.send Comp.Traverser "MOVE COL POS",
           Ev.send Comp.Selector ("MOVE " ++ (("101110" : String).drop 3).take 3),
           Ev.barrier [Comp.Selector, Comp.Traverser, Comp.Feeder],
           Ev.emboss]) ∧
    strikesGuarded (print_char initSup "101110").2 false = true :=
  print_char_nonspace_trace initSup "101110" (by decide)

/-- C3 counterexample: `head_next_char` executes no completion barrier in
either branch (the claim requires a barrier on {Selector, Traverser}
before returning; the source function contains no `task_barrier` call).
Shown at a line-overflow call and at an in-line call. -/
theorem head_next_char_no_barrier_cex :
    hasBarrier (head_next_char { current_line := 1, current_char := 20, last_char := "" } 1).2
      = false ∧
    hasBarrier (head_next_char { current_line := 1, current_char := 0, last_char := "" } 1).2
      = false := by
  decide

/-- C3 amended: on overflow (`current_char + word_length > paper_size`) the
Traverser is homed first, then the Selector, and `current_char` is reset
to 0 before the page logic: on a full page the paper is ejected and
reloaded with `current_line` reset to 1, otherwise one line is fed and
`current_line` incremented.  Otherwise `current_char` is always
incremented and a character advance is dispatched exactly when
`current_char ≠ 0`.  No completion barrier is executed in either branch. -/
theorem head_next_char_behavior (s : SupState) (wl : Int) :
    (s.current_char + wl > get_paper_size →
       (head_next_char s wl).1.current_char = 0 ∧
       (s.current_line = get_paper_length →
          (head_next_char s wl).1.current_line = 1 ∧
          (head_next_char s wl).2 =
            [Ev.send Comp.Traverser "HOME", Ev.send Comp.Selector "HOME",
             Ev.send Comp.Feeder "PAPER EJECT", Ev.send Comp.Feeder "PAPER LOAD"]) ∧
       (s.current_line ≠ get_paper_length →
          (head_next_char s wl).1.current_line = s.current_line + 1 ∧
          (head_next_char s wl).2 =
            [Ev.send Comp.Traverser "HOME", Ev.send Comp.Selector "HOME",
             Ev.send Comp.Feeder "FEED 1 POS"])) ∧
    (¬ s.current_char + wl > get_paper_size →
       (head_next_char s wl).1.current_char = s.current_char + 1 ∧
       (head_next_char s wl).1.current_line = s.current_line ∧
       (s.current_char ≠ 0 →
          (head_next_char s wl).2 = [Ev.send Comp.Traverser "MOVE CHAR POS"]) ∧
       (s.current_char = 0 → (head_next_char s wl).2 = [])) ∧
    hasBarrier (head_next_char s wl).2 = false := by
  refine ⟨?_, ?_, ?_⟩
  · intro hov
    by_cases hl : s.current_line = get_paper_length
    · simp [head_next_char, hov, hl]
    · simp [head_next_char, hov, hl]
  · intro hov
    simp only [head_next_char, if_neg hov]
    by_cases hz : s.current_char = 0
    · simp [hz]
    · simp [hz]
  · by_cases hov : s.current_char + wl > get_paper_size
    · by_cases hl : s.current_line = get_paper_length
      · simp [head_next_char, hov, hl, hasBarrier]
      · simp [head_next_char, hov, hl, hasBarrier]
    · simp only [head_next_char, if_neg hov]
      by_cases hz : s.current_char = 0
      · simp [hz, hasBarrier]
      · simp [hz, hasBarrier]

/-- Witness for `head_next_char_behavior`: an overflow call at column 20 of
line 1 homes the head and feeds to line 2. -/
theorem head_next_char_behavior_witness :
    (head_next_char { current_line := 1, current_char := 20, last_char := "" } 1).1.current_char
      = 0 ∧
    (head_next_char { current_line := 1, current_char := 20, last_char := "" } 1).1.current_line
      = 2 := by
  have h := head_next_char_behavior { current_line := 1, current_char := 20, last_char := "" } 1
  refine ⟨(h.1 (by decide)).1, ?_⟩
  have h2 := ((h.1 (by decide)).2.2 (by decide)).1
  simpa using h2

/-- C7 counterexample: the emergency-stop latch is not process-wide; the
`StepperMotor` and `DCOutputDevice` classes hold distinct latches.  After
the ToolSelector's emergency stop (stepper latch set), an
`Embosser.activate()` still produces an output pulse; after the Embosser's
emergency stop (DC latch set), a `move_steps(5, d)` still takes 5 steps. -/
theorem estop_not_process_wide_cex :
    activate (runHW [EStopOp.selector] initHW) = true ∧
    move_steps (runHW [EStopOp.embosser] initHW) 5 = 5 := by
  decide

/-- C7 amended: each class latch is one-way — no controller emergency-stop
sequence ever clears it — and within its class it disables all motion:
with the stepper latch set every `move_steps` returns 0 steps with no
pulse output, and with the DC latch set every `__pulse_for` (hence
`Embosser.activate`) performs no output pulse. -/
theorem estop_latch_one_way (ops : List EStopOp) (h : HWState) (n : Nat) :
    (h.stepperEmergency = true →
       (runHW ops h).stepperEmergency = true ∧ move_steps (runHW ops h) n = 0) ∧
    (h.dcEmergency = true →
       (runHW ops h).dcEmergency = true ∧ pulse_for (runHW ops h) = false ∧
       activate (runHW ops h) = false) := by
  induction ops generalizing h with
  | nil =>
      constructor
      · intro hs; simp [runHW, move_steps, hs]
      · intro hd; simp [runHW, pulse_for, activate, hd]
  | cons op rest ih =>
      constructor
      · intro hs
        have hstep : (runEStop op h).stepperEmergency = true := by
          cases op <;> simp [runEStop, stepper_e_stop, dc_e_stop, hs]
        exact (ih (runEStop op h)).1 hstep
      · intro hd
        have hstep : (runEStop op h).dcEmergency = true := by
          cases op <;> simp [runEStop, stepper_e_stop, dc_e_stop, hd]
        exact (ih (runEStop op h)).2 hstep

/-- Witness for `estop_latch_one_way`: with the stepper latch set, a later
Embosser emergency stop leaves it set and a 3-step move takes 0 steps. -/
theorem estop_latch_one_way_witness :
    (runHW [EStopOp.embosser] { stepperEmergency := true, dcEmergency := false }).stepperEmergency
      = true ∧
    move_steps (runHW [EStopOp.embosser] { stepperEmergency := true, dcEmergency := false }) 3
      = 0 :=
  (estop_latch_one_way [EStopOp.embosser]
    { stepperEmergency := true, dcEmergency := false } 3).1 rfl

/-- C8: in no-wrap mode the word buffer is never cleared after
`print_word`, so earlier words are printed again on every later space:
on input `a, space, b, space` the cell `a` is handed to `print_char`
twice, where the specified behaviour (flush then clear) prints each
buffered cell exactly once. -/
theorem nowrap_buffer_never_cleared :
    cub_loop_nowrap ["100000", "000000", "010000", "000000"] [] =
      ["100000", "000000", "100000", "010000", "000000"] ∧
    (cub_loop_nowrap ["100000", "000000", "010000", "000000"] []).count "100000" = 2 := by
  decide

/-- C9 counterexample: for the pair `(currentTool, targetTool) = (0, 0)`
the `tool == self.currentTool` branch fires before the `tool == 0` branch,
so `tool_select` stays put without invoking the sensor-verified home path
the claim requires for every target-0 call. -/
theorem tool_select_home_cex :
    tool_select_action 0 0 = SelAction.stay ∧ SelAction.stay ≠ SelAction.home := by
  decide

/-- C9 amended: for all pairs in [0,7]×[0,7]: equal tools short-circuit
with no movement and no home call; target 0 from a different tool uses the
dedicated home path; otherwise the wrapped delta picks the direction (ties
of distance 4 resolve positive) and the step count is
`min(forward, backward) * STEPS_PER_TOOL` where forward/backward are the
two rotational path lengths mod 8. -/
theorem tool_select_shortest_path (c t : Nat) (hc : c < 8) (ht : t < 8) :
    (t = c → tool_select_action (c : Int) (t : Int) = SelAction.stay) ∧
    (t = 0 → c ≠ 0 → tool_select_action (c : Int) (t : Int) = SelAction.home) ∧
    (t ≠ 0 → t ≠ c →
       tool_select_action (c : Int) (t : Int) =
         SelAction.move (decide (0 < ((t : Int) - (c : Int)).emod 8 ∧
                                 ((t : Int) - (c : Int)).emod 8 ≤ 4))
           (min (((t : Int) - (c : Int)).emod 8) (((c : Int) - (t : Int)).emod 8)
              * STEPS_PER_TOOL)) := by
  interval_cases c <;> interval_cases t <;> decide

/-- Witness for `tool_select_shortest_path` at `(2, 7)`: the raw delta 5
wraps to -3, giving a negative rotation of 3 faces = 18 steps, the minimum
of the two path lengths (5 and 3) times 6. -/
theorem tool_select_shortest_path_witness :
    tool_select_action (2 : Int) (7 : Int) =
      SelAction.move (decide (0 < ((7 : Int) - (2 : Int)).emod 8 ∧
                              ((7 : Int) - (2 : Int)).emod 8 ≤ 4))
        (min (((7 : Int) - (2 : Int)).emod 8) (((2 : Int) - (7 : Int)).emod 8)
           * STEPS_PER_TOOL) :=
  (tool_select_shortest_path 2 7 (by decide) (by decide)).2.2 (by decide) (by decide)

/-- Every supervisor character-processing step preserves the position
invariant (`paper_size = 20` and `paper_length = 27` as reported by the
simulated Feeder). -/
theorem posInv_step {s s' : SupState} (hstep : SupStep s s') (hs : PosInv s) : PosInv s' := by
  have hc0 : 0 ≤ s.current_char := hs.1
  have hc1 : s.current_char ≤ (20 : Int) := hs.2.1
  have hl0 : 1 ≤ s.current_line := hs.2.2.1
  have hl1 : s.current_line ≤ (27 : Int) := hs.2.2.2
  cases hstep with
  | print c =>
      have hfix : (print_char s c).1 = s := by
        unfold print_char
        split_ifs <;> rfl
      rw [hfix]
      exact ⟨hc0, hc1, hl0, hl1⟩
  | next wl hwl =>
      unfold head_next_char
      split_ifs with hov hl hz
      · refine ⟨?_, ?_, ?_, ?_⟩
        · show (0 : Int) ≤ 0
          decide
        · show (0 : Int) ≤ get_paper_size
          decide
        · show (1 : Int) ≤ 1
          decide
        · show (1 : Int) ≤ get_paper_length
          decide
      · have hl' : s.current_line ≠ (27 : Int) := hl
        refine ⟨?_, ?_, ?_, ?_⟩
        · show (0 : Int) ≤ 0
          decide
        · show (0 : Int) ≤ get_paper_size
          decide
        · show (1 : Int) ≤ s.current_line + 1
          omega
        · show s.current_line + 1 ≤ (27 : Int)
          omega
      · have hov' : ¬ s.current_char + wl > (20 : Int) := hov
        refine ⟨?_, ?_, hl0, hl1⟩
        · show (0 : Int) ≤ s.current_char + 1
          omega
        · show s.current_char + 1 ≤ (20 : Int)
          omega
      · have hov' : ¬ s.current_char + wl > (20 : Int) := hov
        refine ⟨?_, ?_, hl0, hl1⟩
        · show (0 : Int) ≤ s.current_char + 1
          omega
        · show s.current_char + 1 ≤ (20 : Int)
          omega
  | bsp s' clear evs h =>
      by_cases h0 : s.current_char = 0
      · by_cases h1 : s.current_line = 1
        · unfold backspace at h
          rw [if_pos h0, if_pos h1] at h
          simp at h
        · unfold backspace at h
          rw [if_pos h0, if_neg h1] at h
          simp only [Except.ok.injEq, Prod.mk.injEq] at h
          obtain ⟨rfl, -⟩ := h
          have h1' : s.current_line ≠ (1 : Int) := h1
          refine ⟨?_, ?_, ?_, ?_⟩
          · show (0 : Int) ≤ get_paper_size - 1 - 1
            decide
          · show get_paper_size - 1 - 1 ≤ get_paper_size
            decide
          · show (1 : Int) ≤ s.current_line - 1
            omega
          · show s.current_line - 1 ≤ (27 : Int)
            omega
      · unfold backspace at h
        rw [if_neg h0] at h
        simp only [Except.ok.injEq, Prod.mk.injEq] at h
        obtain ⟨rfl, -⟩ := h
        have h0' : s.current_char ≠ (0 : Int) := h0
        refine ⟨?_, ?_, hl0, hl1⟩
        · show (0 : Int) ≤ s.current_char - 1
          omega
        · show s.current_char - 1 ≤ (20 : Int)
          omega
  | bspPartial h0 h1 =>
      have h1' : s.current_line ≠ (1 : Int) := h1
      refine ⟨?_, ?_, ?_, ?_⟩
      · show (0 : Int) ≤ get_paper_size - 1
        decide
      · show get_paper_size - 1 ≤ get_paper_size
        decide
      · show (1 : Int) ≤ s.current_line - 1
        omega
      · show s.current_line - 1 ≤ (27 : Int)
        omega

/-- C4: every supervisor state reachable from the session-start state by
`cub_loop` character-processing steps (`print_char`, `head_next_char`,
`backspace`, including a barrier-aborted backspace) satisfies
`0 ≤ current_char ≤ paper_size` and `1 ≤ current_line ≤ paper_length`,
with `paper_size = 20` and `paper_length = 27` the values reported by the
(simulated) Feeder. -/
theorem position_invariant (s : SupState) (h : SupReachable s) : PosInv s := by
  induction h with
  | refl => exact ⟨by decide, by decide, by decide, by decide⟩
  | tail hab hbc ih => exact posInv_step hbc ih

/-- Witness for `position_invariant`: the state after one
`head_next_char(1)` from the session start is reachable and in bounds. -/
theorem position_invariant_witness :
    PosInv (head_next_char initSup 1).1 :=
  position_invariant (head_next_char initSup 1).1
    (Relation.ReflTransGen.single (SupStep.next initSup 1 (by decide)))

/-- `send_task` preserves the dispatcher bookkeeping invariant. -/
theorem barInv_send {σ : BarState} (h : BarInv σ) (t : Comp) (task : String) :
    BarInv (send_task σ t task) := by
  intro c
  rcases h c with ⟨h1, h2, h3⟩
  by_cases hc : c = t
  · subst hc
    simp [send_task, upd]
    refine ⟨?_, h2, ?_⟩ <;> omega
  · simp only [send_task, upd, if_neg hc]
    exact ⟨h1, h2, h3⟩

/-- Draining a success acknowledgement preserves the bookkeeping
invariant (the receive is only possible while `recvd < sent`). -/
theorem barInv_recvAck {σ : BarState} (h : BarInv σ) {c : Comp}
    (hlt : σ.recvd c < σ.sent c) : BarInv (recvAckState σ c) := by
  intro x
  rcases h x with ⟨h1, h2, h3⟩
  by_cases hx : x = c
  · subst hx
    rcases h x with ⟨-, -, -⟩
    simp [recvAckState, upd]
    refine ⟨?_, ?_, ?_⟩ <;> omega
  · simp only [recvAckState, upd, if_neg hx]
    exact ⟨h1, h2, h3⟩

/-- Draining a failure acknowledgement preserves the bookkeeping
invariant. -/
theorem barInv_recvFail {σ : BarState} (h : BarInv σ) {c : Comp}
    (hlt : σ.recvd c < σ.sent c) : BarInv (recvFailState σ c) := by
  intro x
  rcases h x with ⟨h1, h2, h3⟩
  by_cases hx : x = c
  · subst hx
    simp [recvFailState, upd]
    refine ⟨h1, ?_, ?_⟩ <;> omega
  · simp only [recvFailState, upd, if_neg hx]
    exact ⟨h1, h2, h3⟩

/-- Every reachable dispatcher state satisfies the bookkeeping
invariant. -/
theorem barReach_inv {msgs : Comp → Nat → String} {σ : BarState} (h : BarReach msgs σ) :
    BarInv σ := by
  induction h with
  | init => intro c; refine ⟨?_, ?_, ?_⟩ <;> simp [initBar]
  | send σ t task hr ih => exact barInv_send ih t task
  | recvAck σ c h1 h2 hr ih => exact barInv_recvAck ih h1
  | recvFail σ c h1 h2 hr ih => exact barInv_recvFail ih h1

/-- Each state produced by the per-component drain loop is reachable by
individual receive steps. -/
theorem barReach_drain {msgs : Comp → Nat → String} (c : Comp) (n : Nat) :
    ∀ σ : BarState, BarReach msgs σ → BarReach msgs (drain msgs c n σ).1 := by
  induction n with
  | zero =>
      intro σ h
      simpa [drain] using h
  | succ n ih =>
      intro σ h
      by_cases hlt : σ.recvd c < σ.sent c
      · by_cases hack : msgs c (σ.recvd c) = "ACK"
        · have heq : drain msgs c (n + 1) σ = drain msgs c n (recvAckState σ c) := by
            simp [drain, hlt, hack]
          rw [heq]
          exact ih _ (BarReach.recvAck σ c hlt hack h)
        · have heq : (drain msgs c (n + 1) σ).1 = recvFailState σ c := by
            simp [drain, hlt, hack]
          rw [heq]
          exact BarReach.recvFail σ c hlt hack h
      · have heq : (drain msgs c (n + 1) σ).1 = σ := by
          simp [drain, hlt]
        rw [heq]
        exact h

/-- Each state produced by a group drain is reachable by individual
receive steps. -/
theorem barReach_drainGroup {msgs : Comp → Nat → String} (g : List (Comp × Nat)) :
    ∀ σ : BarState, BarReach msgs σ → BarReach msgs (drainGroup msgs g σ).1 := by
  induction g with
  | nil =>
      intro σ h
      simpa [drainGroup] using h
  | cons q rest ih =>
      intro σ h
      obtain ⟨c, n⟩ := q
      rcases hdr : drain msgs c n σ with ⟨σ1, r⟩
      have hd := barReach_drain c n σ h
      rw [hdr] at hd
      cases r with
      | completed =>
          have heq : drainGroup msgs ((c, n) :: rest) σ = drainGroup msgs rest σ1 := by
            simp [drainGroup, hdr]
          rw [heq]
          exact ih σ1 hd
      | failed e =>
          have heq : (drainGroup msgs ((c, n) :: rest) σ).1 = σ1 := by
            simp [drainGroup, hdr]
          rw [heq]
          exact hd
      | blocked =>
          have heq : (drainGroup msgs ((c, n) :: rest) σ).1 = σ1 := by
            simp [drainGroup, hdr]
          rw [heq]
          exact hd

/-- The state after any `task_barrier` call is reachable by individual
receive steps. -/
theorem barReach_barrier {msgs : Comp → Nat → String} (targets : List Comp) (σ : BarState)
    (h : BarReach msgs σ) : BarReach msgs (task_barrier msgs targets σ).1 := by
  simp only [task_barrier]
  exact barReach_drainGroup _ σ h

/-- C2: along every sequence of `send_task` calls and `task_barrier`
receive steps, each component's outstanding-task counter is non-negative
and equals commands sent minus success acknowledgements drained; the
counter is only ever changed by those operations (the reachability
relation consists of exactly the mutation sites of the `tasks`
dictionary), and `task_barrier` keeps the state inside the relation. -/
theorem outstanding_count_invariant (msgs : Comp → Nat → String) (σ : BarState)
    (h : BarReach msgs σ) :
    (∀ c, 0 ≤ σ.tasks c ∧ σ.tasks c = (σ.sent c : Int) - (σ.acked c : Int)) ∧
    (∀ targets, BarReach msgs (task_barrier msgs targets σ).1) := by
  refine ⟨?_, fun targets => barReach_barrier targets σ h⟩
  intro c
  rcases barReach_inv h c with ⟨h1, h2, h3⟩
  constructor
  · omega
  · exact h1

/-- Witness for `outstanding_count_invariant`: one dispatch to the
Selector followed by one drained success acknowledgement. -/
theorem outstanding_count_invariant_witness :
    0 ≤ (recvAckState (send_task initBar Comp.Selector "MOVE 100") Comp.Selector).tasks
        Comp.Selector ∧
    (recvAckState (send_task initBar Comp.Selector "MOVE 100") Comp.Selector).tasks
        Comp.Selector =
      (((recvAckState (send_task initBar Comp.Selector "MOVE 100") Comp.Selector).sent
          Comp.Selector : Int) -
       ((recvAckState (send_task initBar Comp.Selector "MOVE 100") Comp.Selector).acked
          Comp.Selector : Int)) :=
  (outstanding_count_invariant ackAlways _
      (BarReach.recvAck _ Comp.Selector (by decide) rfl
        (BarReach.send _ Comp.Selector "MOVE 100" BarReach.init))).1 Comp.Selector

/-- The per-component drain loop leaves every other component's counters
untouched. -/
theorem drain_frame (msgs : Comp → Nat → String) {c : Comp} (x : Comp) (hx : x ≠ c)
    (n : Nat) : ∀ σ : BarState,
    (drain msgs c n σ).1.recvd x = σ.recvd x ∧
    (drain msgs c n σ).1.acked x = σ.acked x ∧
    (drain msgs c n σ).1.tasks x = σ.tasks x := by
  induction n with
  | zero => intro σ; simp [drain]
  | succ n ih =>
      intro σ
      by_cases hlt : σ.recvd c < σ.sent c
      · by_cases hack : msgs c (σ.recvd c) = "ACK"
        · have heq : drain msgs c (n + 1) σ = drain msgs c n (recvAckState σ c) := by
            simp [drain, hlt, hack]
          rw [heq]
          have h2 := ih (recvAckState σ c)
          simpa [recvAckState, upd, hx] using h2
        · have heq : (drain msgs c (n + 1) σ).1 = recvFailState σ c := by
            simp [drain, hlt, hack]
          rw [heq]
          simp [recvFailState, upd, hx]
      · have heq : (drain msgs c (n + 1) σ).1 = σ := by
          simp [drain, hlt]
        rw [heq]
        exact ⟨rfl, rfl, rfl⟩

/-- A drain that completes has received exactly `n` messages from its
component, acknowledged all of them as successes, and decremented the
counter once per success. -/
theorem drain_completed {msgs : Comp → Nat → String} {c : Comp} (n : Nat) :
    ∀ σ : BarState, (drain msgs c n σ).2 = BarrierOutcome.completed →
      (drain msgs c n σ).1.recvd c = σ.recvd c + n ∧
      (drain msgs c n σ).1.acked c = σ.acked c + n ∧
      (drain msgs c n σ).1.tasks c = σ.tasks c - (n : Int) := by
  induction n with
  | zero => intro σ _; simp [drain]
  | succ n ih =>
      intro σ hcpl
      by_cases hlt : σ.recvd c < σ.sent c
      · by_cases hack : msgs c (σ.recvd c) = "ACK"
        · have heq : drain msgs c (n + 1) σ = drain msgs c n (recvAckState σ c) := by
            simp [drain, hlt, hack]
          rw [heq] at hcpl ⊢
          obtain ⟨ha, hb, hc2⟩ := ih (recvAckState σ c) hcpl
          rw [ha, hb, hc2]
          simp [recvAckState, upd]
          refine ⟨?_, ?_, ?_⟩ <;> omega
        · have heq : (drain msgs c (n + 1) σ).2 = BarrierOutcome.failed
              { component := compName c, operation := "", message := msgs c (σ.recvd c) } := by
            simp [drain, hlt, hack]
          rw [heq] at hcpl
          cases hcpl
      · have heq : (drain msgs c (n + 1) σ).2 = BarrierOutcome.blocked := by
          simp [drain, hlt]
        rw [heq] at hcpl
        cases hcpl

/-- A drain that raises produced an `OperationError` whose component is the
drained component, whose operation field is the empty string, and whose
message is the non-success reply actually received. -/
theorem drain_failed {msgs : Comp → Nat → String} {c : Comp} (n : Nat) :
    ∀ (σ : BarState) (e : OperationError),
      (drain msgs c n σ).2 = BarrierOutcome.failed e →
      e.operation = "" ∧ e.component = compName c ∧
      ∃ i, e.message = msgs c i ∧ msgs c i ≠ "ACK" := by
  induction n with
  | zero => intro σ e h; simp [drain] at h
  | succ n ih =>
      intro σ e h
      by_cases hlt : σ.recvd c < σ.sent c
      · by_cases hack : msgs c (σ.recvd c) = "ACK"
        · have heq : drain msgs c (n + 1) σ = drain msgs c n (recvAckState σ c) := by
            simp [drain, hlt, hack]
          rw [heq] at h
          exact ih _ _ h
        · have heq : (drain msgs c (n + 1) σ).2 = BarrierOutcome.failed
              { component := compName c, operation := "", message := msgs c (σ.recvd c) } := by
            simp [drain, hlt, hack]
          rw [heq] at h
          cases h
          exact ⟨rfl, rfl, σ.recvd c, rfl, hack⟩
      · have heq : (drain msgs c (n + 1) σ).2 = BarrierOutcome.blocked := by
          simp [drain, hlt]
        rw [heq] at h
        cases h

/-- A group drain leaves components outside the group untouched. -/
theorem drainGroup_frame (msgs : Comp → Nat → String) (g : List (Comp × Nat)) (x : Comp) :
    ∀ σ : BarState, x ∉ g.map Prod.fst →
      (drainGroup msgs g σ).1.recvd x = σ.recvd x ∧
      (drainGroup msgs g σ).1.acked x = σ.acked x ∧
      (drainGroup msgs g σ).1.tasks x = σ.tasks x := by
  induction g with
  | nil => intro σ _; simp [drainGroup]
  | cons q rest ih =>
      intro σ hx
      obtain ⟨c, n⟩ := q
      have hxc : x ≠ c := by
        intro hcontra
        exact hx (by simp [hcontra])
      have hxrest : x ∉ rest.map Prod.fst := by
        intro hcontra
        exact hx (by simp [hcontra])
      rcases hdr : drain msgs c n σ with ⟨σ1, r⟩
      have hfr := drain_frame msgs x hxc n σ
      rw [hdr] at hfr
      cases r with
      | completed =>
          have heq : drainGroup msgs ((c, n) :: rest) σ = drainGroup msgs rest σ1 := by
            simp [drainGroup, hdr]
          rw [heq]
          obtain ⟨hr1, hr2, hr3⟩ := ih σ1 hxrest
          exact ⟨hr1.trans hfr.1, hr2.trans hfr.2.1, hr3.trans hfr.2.2⟩
      | failed e =>
          have heq : (drainGroup msgs ((c, n) :: rest) σ).1 = σ1 := by
            simp [drainGroup, hdr]
          rw [heq]
          exact hfr
      | blocked =>
          have heq : (drainGroup msgs ((c, n) :: rest) σ).1 = σ1 := by
            simp [drainGroup, hdr]
          rw [heq]
          exact hfr

/-- A group drain that completes drains, for each listed pair, exactly the
recorded count from that component. -/
theorem drainGroup_completed {msgs : Comp → Nat → String} (g : List (Comp × Nat)) :
    ∀ σ : BarState, (g.map Prod.fst).Nodup →
      (drainGroup msgs g σ).2 = BarrierOutcome.completed →
      ∀ p ∈ g,
        (drainGroup msgs g σ).1.recvd p.1 = σ.recvd p.1 + p.2 ∧
        (drainGroup msgs g σ).1.acked p.1 = σ.acked p.1 + p.2 ∧
        (drainGroup msgs g σ).1.tasks p.1 = σ.tasks p.1 - (p.2 : Int) := by
  induction g with
  | nil => intro σ _ _ p hp; simp at hp
  | cons q rest ih =>
      intro σ hnd hcpl p hp
      obtain ⟨c, n⟩ := q
      have hnd2 : (c :: rest.map Prod.fst).Nodup := by
        simpa only [List.map_cons] using hnd
      have hnd' : (rest.map Prod.fst).Nodup := (List.nodup_cons.mp hnd2).2
      have hcnotin : c ∉ rest.map Prod.fst := (List.nodup_cons.mp hnd2).1
      rcases hdr : drain msgs c n σ with ⟨σ1, r⟩
      cases r with
      | completed =>
          have heq : drainGroup msgs ((c, n) :: rest) σ = drainGroup msgs rest σ1 := by
            simp [drainGroup, hdr]
          rw [heq] at hcpl ⊢
          have hdc := drain_completed n σ (by rw [hdr])
          rw [hdr] at hdc
          rcases List.mem_cons.mp hp with hph | hpt
          · subst hph
            have hfr := drainGroup_frame msgs rest c σ1 hcnotin
            exact ⟨hfr.1.trans hdc.1, hfr.2.1.trans hdc.2.1, hfr.2.2.trans hdc.2.2⟩
          · have hpc : p.1 ≠ c := by
              intro hcontra
              exact hcnotin (hcontra ▸ List.mem_map_of_mem Prod.fst hpt)
            have hfr := drain_frame msgs p.1 hpc n σ
            rw [hdr] at hfr
            obtain ⟨ht1, ht2, ht3⟩ := ih σ1 hnd' hcpl p hpt
            refine ⟨?_, ?_, ?_⟩
            · rw [ht1, hfr.1]
            · rw [ht2, hfr.2.1]
            · rw [ht3, hfr.2.2]
      | failed e =>
          have heq : (drainGroup msgs ((c, n) :: rest) σ).2 = BarrierOutcome.failed e := by
            simp [drainGroup, hdr]
          rw [heq] at hcpl
          cases hcpl
      | blocked =>
          have heq : (drainGroup msgs ((c, n) :: rest) σ).2 = BarrierOutcome.blocked := by
            simp [drainGroup, hdr]
          rw [heq] at hcpl
          cases hcpl

/-- A group drain that raises did so at the first failing component of the
group, with the drain-failure error shape. -/
theorem drainGroup_failed {msgs : Comp → Nat → String} (g : List (Comp × Nat)) :
    ∀ (σ : BarState) (e : OperationError),
      (drainGroup msgs g σ).2 = BarrierOutcome.failed e →
      ∃ p, p ∈ g ∧ e.operation = "" ∧ e.component = compName p.1 ∧
        ∃ i, e.message = msgs p.1 i ∧ msgs p.1 i ≠ "ACK" := by
  induction g with
  | nil => intro σ e h; simp [drainGroup] at h
  | cons q rest ih =>
      intro σ e h
      obtain ⟨c, n⟩ := q
      rcases hdr : drain msgs c n σ with ⟨σ1, r⟩
      cases r with
      | completed =>
          have heq : drainGroup msgs ((c, n) :: rest) σ = drainGroup msgs rest σ1 := by
            simp [drainGroup, hdr]
          rw [heq] at h
          obtain ⟨p, hp, hrest⟩ := ih σ1 e h
          exact ⟨p, List.mem_cons_of_mem _ hp, hrest⟩
      | failed e2 =>
          have heq : (drainGroup msgs ((c, n) :: rest) σ).2 = BarrierOutcome.failed e2 := by
            simp [drainGroup, hdr]
          rw [heq] at h
          have he : e2 = e := BarrierOutcome.failed.inj h
          subst he
          have hdf := drain_failed n σ e2 (by rw [hdr])
          exact ⟨(c, n), List.mem_cons_self _ _, hdf.1, hdf.2.1, hdf.2.2⟩
      | blocked =>
          have heq : (drainGroup msgs ((c, n) :: rest) σ).2 = BarrierOutcome.blocked := by
            simp [drainGroup, hdr]
          rw [heq] at h
          cases h

/-- C5 (amended): `task_barrier` pairs each targeted component with its
outstanding-task count recorded at call time; when the wait completes it
has drained exactly that many acknowledgements per targeted component,
each success decrementing the counter, while untargeted components are not
waited on; the first non-success acknowledgement aborts the wait and
raises an `OperationError` carrying the failing component and the raw
failure message, with the operation field left empty (`OperationError(name,
"", msg)` in the source). -/
theorem task_barrier_snapshot (msgs : Comp → Nat → String) (targets : List Comp)
    (σ : BarState) (hne : targets ≠ []) (hnd : targets.Nodup) :
    ((task_barrier msgs targets σ).2 = BarrierOutcome.completed →
       ∀ c ∈ targets,
         (task_barrier msgs targets σ).1.recvd c = σ.recvd c + (σ.tasks c).toNat ∧
         (task_barrier msgs targets σ).1.acked c = σ.acked c + (σ.tasks c).toNat ∧
         (task_barrier msgs targets σ).1.tasks c = σ.tasks c - ((σ.tasks c).toNat : Int)) ∧
    (∀ c, c ∉ targets →
       (task_barrier msgs targets σ).1.recvd c = σ.recvd c ∧
       (task_barrier msgs targets σ).1.tasks c = σ.tasks c) ∧
    (∀ e, (task_barrier msgs targets σ).2 = BarrierOutcome.failed e →
       e.operation = "" ∧
       ∃ c, c ∈ targets ∧ e.component = compName c ∧
         ∃ i, e.message = msgs c i ∧ msgs c i ≠ "ACK") := by
  have hie : targets.isEmpty = false := by
    cases targets with
    | nil => exact absurd rfl hne
    | cons a as => rfl
  have hgroup : task_barrier msgs targets σ =
      drainGroup msgs (targets.map fun c => (c, (σ.tasks c).toNat)) σ := by
    simp [task_barrier, hie]
  have hfstAll : ∀ l : List Comp, (l.map fun c => (c, (σ.tasks c).toNat)).map Prod.fst = l := by
    intro l
    induction l with
    | nil => rfl
    | cons a as ih2 => simp [ih2]
  have hfst := hfstAll targets
  refine ⟨?_, ?_, ?_⟩
  · intro hcpl c hc
    have hmem : (c, (σ.tasks c).toNat) ∈ targets.map fun c => (c, (σ.tasks c).toNat) :=
      List.mem_map_of_mem _ hc
    have := drainGroup_completed (targets.map fun c => (c, (σ.tasks c).toNat)) σ
      (by rw [hfst]; exact hnd) (by rw [← hgroup]; exact hcpl)
      ((c, (σ.tasks c).toNat)) hmem
    rw [← hgroup] at this
    exact this
  · intro c hc
    have := drainGroup_frame msgs (targets.map fun c => (c, (σ.tasks c).toNat)) c σ
      (by rw [hfst]; exact hc)
    rw [← hgroup] at this
    exact ⟨this.1, this.2.2⟩
  · intro e he
    rw [hgroup] at he
    obtain ⟨p, hp, hop, hcomp, i, hmsg, hnack⟩ :=
      drainGroup_failed (targets.map fun c => (c, (σ.tasks c).toNat)) σ e he
    obtain ⟨c, hc, rfl⟩ := List.mem_map.mp hp
    exact ⟨hop, c, hc, hcomp, i, hmsg, hnack⟩

/-- C5 counterexample: the typed failure raised by `task_barrier` does not
carry the failing operation — the source raises `OperationError(name, "",
msg)`, so the operation field is the empty string even when the
component's failure message names the operation that failed (here `Tool
Select`). -/
theorem task_barrier_empty_operation_cex :
    (task_barrier failAlways [Comp.Selector]
        (send_task initBar Comp.Selector "MOVE 101")).2 =
      BarrierOutcome.failed
        { component := "Selector", operation := "",
          message := "Selector ERROR: fail - OP: Tool Select" } ∧
    ("" : String) ≠ "Tool Select" := by
  decide

/-- Witness for `task_barrier_snapshot`: two outstanding Selector tasks,
an all-success reply stream, a barrier on [Selector]: two receives and a
zeroed counter. -/
theorem task_barrier_snapshot_witness :
    (task_barrier ackAlways [Comp.Selector] barDemo).1.recvd Comp.Selector = 2 ∧
    (task_barrier ackAlways [Comp.Selector] barDemo).1.tasks Comp.Selector = 0 := by
  have h := ((task_barrier_snapshot ackAlways [Comp.Selector] barDemo (by decide)
    (by decide)).1 (by decide) Comp.Selector (by decide))
  exact ⟨h.1.trans (by decide), h.2.2.trans (by decide)⟩

/-- C6 counterexample: from the Operating state with tool 5 and a home
sensor that never trips, the command stream `HOME`, `MOVE 101` produces a
single failure message (the `Tool Home` `OperationError`, reported over
the pipe by the thread's exception handler) and an emergency-stopped,
exited thread: the subsequent `MOVE 101` is never processed and receives
no acknowledgement, so the controller does not remain able to process
commands after an operation fault. -/
theorem selector_fault_stops_loop_cex :
    threadInOperating sensNever
      { currentTool := 5, exit := false, estop := false, sensorIdx := 0 }
      ["HOME", "MOVE 101"] =
    (["component_control.ToolSelector ERROR: Tool home operation failed, - Blank face could not be selected - OP: Tool Home"],
     { currentTool := 5, exit := true, estop := true, sensorIdx := 3 }) := by
  decide

/-- C6 amended: an exception raised by an operation inside the Operating
loop is not propagated over the channel: `thread_in` converts it into a
failure-message string appended to the outputs and emergency-stops the
component — but the loop terminates there, so commands after the faulting
one are ignored entirely (the run result is independent of the rest of the
stream). -/
theorem selector_fault_reported (sens : Nat → Bool) (s : SelState)
    (msgs outs : List String) (s1 : SelState) (e : CUBErr)
    (h : runSel sens s msgs = (outs, s1, some e)) :
    (∀ rest, runSel sens s (msgs ++ rest) = (outs, s1, some e)) ∧
    threadInOperating sens s msgs = (outs ++ [fmtCUBErr e], selEmergencyStop s1) := by
  constructor
  · intro rest
    induction msgs generalizing s outs with
    | nil => simp [runSel] at h
    | cons m tail ih =>
        rw [runSel] at h
        rw [List.cons_append, runSel]
        by_cases hex : s.exit
        · rw [if_pos hex] at h
          simp at h
        · rw [if_neg hex] at h ⊢
          rcases hsc : selCommand sens s m with ⟨s2, r⟩
          rw [hsc] at h
          cases r with
          | none =>
              dsimp only at h ⊢
              rcases hrun : runSel sens s2 tail with ⟨outs2, s3, r3⟩
              rw [hrun] at h
              dsimp only at h
              simp only [Prod.mk.injEq] at h
              obtain ⟨houts, hs1, hr⟩ := h
              subst houts
              subst hs1
              subst hr
              rw [ih s2 outs2 hrun]
          | some e2 =>
              dsimp only at h ⊢
              exact h
  · rw [threadInOperating, h]

/-- Witness for `selector_fault_reported`: the concrete faulting `HOME`
run of the counterexample scenario, with one trailing command ignored. -/
theorem selector_fault_reported_witness :
    runSel sensNever { currentTool := 5, exit := false, estop := false, sensorIdx := 0 }
      (["HOME"] ++ ["MOVE 101"]) =
      ([], { currentTool := 5, exit := false, estop := false, sensorIdx := 3 },
       some (CUBErr.opErr
         { component := "component_control.ToolSelector", operation := "Tool Home",
           message := "Tool home operation failed, - Blank face could not be selected" })) ∧
    threadInOperating sensNever
      { currentTool := 5, exit := false, estop := false, sensorIdx := 0 } ["HOME"] =
      ([] ++ [fmtCUBErr (CUBErr.opErr
         { component := "component_control.ToolSelector", operation := "Tool Home",
           message := "Tool home operation failed, - Blank face could not be selected" })],
       selEmergencyStop
         { currentTool := 5, exit := false, estop := false, sensorIdx := 3 }) := by
  have h := selector_fault_reported sensNever
    { currentTool := 5, exit := false, estop := false, sensorIdx := 0 } ["HOME"] []
    { currentTool := 5, exit := false, estop := false, sensorIdx := 3 }
    (CUBErr.opErr
      { component := "component_control.ToolSelector", operation := "Tool Home",
        message := "Tool home operation failed, - Blank face could not be selected" })
    (by decide)
  exact ⟨h.1 ["MOVE 101"], h.2⟩

end CUB
